import Mathlib

/-!
Verification of the retrieval-and-explanation core of the pocket-ml-paper-rag
repository (src/app/vector_store.py, src/app/query_engine.py,
src/app/llm_summary.py, src/app/main.py).

Python strings are embedded as lists of characters (`Str`); the Chroma
collection backing `VectorStore` is embedded as an explicit state record;
the external collaborators (embedding model, Chroma nearest-neighbor query,
OpenAI chat completion) are embedded as oracle functions supplied as
arguments, since their outputs are not computed by the repository's code.
-/

/-- A Python string: an immutable sequence of characters. -/
abbrev Str := List Char

/-- Python `str.strip()` with no argument: remove leading and trailing
whitespace. -/
def stripChars (s : Str) : Str :=
  ((s.dropWhile Char.isWhitespace).reverse.dropWhile Char.isWhitespace).reverse

/-- Python `s.split(",")`: split on every comma; contiguous commas and
leading/trailing commas produce empty fragments, and the empty string
yields the single-element list holding the empty string. -/
def splitComma : Str → List Str
  | [] => [[]]
  | c :: cs =>
    if c = ',' then [] :: splitComma cs
    else
      match splitComma cs with
      | [] => [[c]]
      | p :: ps => (c :: p) :: ps

/-- Python `",".join(parts)`. -/
def joinComma : List Str → Str
  | [] => []
  | k :: ks =>
    match ks with
    | [] => k
    | _ :: _ => k ++ ',' :: joinComma ks

/-- Python `", ".join(parts)` (used when rendering keywords into prompts). -/
def joinCommaSpace : List Str → Str
  | [] => []
  | k :: ks =>
    match ks with
    | [] => k
    | _ :: _ => k ++ ',' :: ' ' :: joinCommaSpace ks

/-!
## Data model

`PaperMetadata` is the metadata dictionary built by `VectorStore.add_paper`
(src/app/vector_store.py lines 74-81): the five fixed keys plus the
caller-supplied extra pairs spread in by `**(metadata or {})`.
-/

structure PaperMetadata where
  title : Str
  summary : Str
  keywords : Str
  content_snippet : Str
  full_text_length : Nat
  extra : List (Str × Str)
deriving DecidableEq

/-- One `(id, embedding, metadata, document)` record held by the Chroma
collection. -/
structure Entry where
  id : Str
  embedding : List Rat
  metadata : PaperMetadata
  document : Str
deriving DecidableEq

/-- Errors raised by the Chroma client: dimension disagreement on insert,
duplicate id on insert, and storage being unreachable (the spec's
`PersistenceError`), which any operation can raise. -/
inductive ChromaErr where
  | dimensionMismatch
  | duplicateId
  | persistence
deriving DecidableEq

/-- The state of the Chroma collection `ml_papers`. `dim` is the fixed
vector dimension (set by the first insert), `entries` the stored records
in insertion order, and `broken` models the storage being unreachable, in
which case every client call raises. -/
structure Collection where
  dim : Option Nat
  entries : List Entry
  broken : Bool
deriving DecidableEq

/-- Modelled from the spec: `collection.add` of the external Chroma library
(called by `VectorStore.add_paper`, src/app/vector_store.py line 87). The
spec's §4.2 contract for the index insert: it `rejects with
DimensionMismatch if len(vector) != D for the collection; otherwise
inserts; id must not already exist`. Validation happens before anything is
written, so a rejected insert leaves the collection unchanged. -/
def Collection.add (c : Collection) (id : Str) (emb : List Rat)
    (md : PaperMetadata) (doc : Str) : Except ChromaErr Collection :=
  if c.broken then .error .persistence
  else
    match c.dim with
    | some d =>
      if emb.length ≠ d then .error .dimensionMismatch
      else if c.entries.any (fun e => e.id == id) then .error .duplicateId
      else .ok { c with entries := c.entries ++ [⟨id, emb, md, doc⟩] }
    | none =>
      if c.entries.any (fun e => e.id == id) then .error .duplicateId
      else .ok { dim := some emb.length,
                 entries := c.entries ++ [⟨id, emb, md, doc⟩],
                 broken := c.broken }

/-- `collection.get(ids=...)` of the external Chroma library: returns the
stored records whose id is among `ids`; ids with no match contribute
nothing (no error). -/
def Collection.get (c : Collection) (ids : List Str) :
    Except ChromaErr (List Entry) :=
  if c.broken then .error .persistence
  else .ok (c.entries.filter (fun e => ids.contains e.id))

/-- `collection.get()` with no ids: returns every stored record. -/
def Collection.getAll (c : Collection) : Except ChromaErr (List Entry) :=
  if c.broken then .error .persistence
  else .ok c.entries

/-- `collection.delete(ids=...)` of the external Chroma library: removes
the records whose id is among `ids`; ids with no match are silently
ignored (Chroma's delete raises no error for absent ids — the repository's
own delete endpoint in src/app/main.py pre-checks existence with
`get_paper` for exactly that reason). -/
def Collection.deleteIds (c : Collection) (ids : List Str) :
    Except ChromaErr Collection :=
  if c.broken then .error .persistence
  else .ok { c with entries := c.entries.filter (fun e => !(ids.contains e.id)) }

/-- `collection.count()` of the external Chroma library. -/
def Collection.countEntries (c : Collection) : Except ChromaErr Nat :=
  if c.broken then .error .persistence
  else .ok c.entries.length

/-!
## VectorStore (src/app/vector_store.py)

`uuid.uuid4()` is modelled by passing the generated id as the `paper_id`
argument; uuid uniqueness is a hypothesis where a theorem needs it.
Methods that thread state return the new `Collection` alongside their
result; a raised exception corresponds to returning the error together
with the unchanged input state.
-/

/-- The metadata dictionary assembled by `add_paper` (lines 74-81):
keywords are flattened to one comma-joined string, the full text
contributes only its length, and the caller's extra metadata pairs are
carried along. -/
def mkPaperMetadata (title summary : Str) (keywords : List Str)
    (content_snippet : Str) (full_text : Str)
    (extra : List (Str × Str)) : PaperMetadata :=
  { title := title
    summary := summary
    keywords := joinComma keywords
    content_snippet := content_snippet
    full_text_length := full_text.length
    extra := extra }

/-- `VectorStore.add_paper` (lines 46-94): build the metadata dictionary,
then call `collection.add` with the snippet as the stored document. No
exception handling here — a Chroma error propagates, leaving the
collection as it was. -/
def VectorStore.add_paper (c : Collection) (paper_id : Str)
    (title summary : Str) (keywords : List Str)
    (content_snippet full_text : Str) (embedding : List Rat)
    (extra : List (Str × Str)) : Except ChromaErr Str × Collection :=
  match Collection.add c paper_id embedding
      (mkPaperMetadata title summary keywords content_snippet full_text extra)
      content_snippet with
  | .ok c2 => (.ok paper_id, c2)
  | .error e => (.error e, c)

/-- The dictionary `get_paper` and `list_all_papers` build for each stored
record (id, stored metadata, stored document). -/
structure PaperRecord where
  id : Str
  metadata : PaperMetadata
  document : Str
deriving DecidableEq

/-- `VectorStore.get_paper` (lines 140-161): fetch by id; an empty match
yields `None`, and any exception is caught and also yields `None`. -/
def VectorStore.get_paper (c : Collection) (paper_id : Str) :
    Option PaperRecord :=
  match Collection.get c [paper_id] with
  | .error _ => none
  | .ok es =>
    match es with
    | [] => none
    | e :: _ => some { id := e.id, metadata := e.metadata, document := e.document }

/-- `VectorStore.list_all_papers` (lines 163-184): format every stored
record; any exception is caught and yields the empty list. -/
def VectorStore.list_all_papers (c : Collection) : List PaperRecord :=
  match Collection.getAll c with
  | .error _ => []
  | .ok es =>
    es.map (fun e => { id := e.id, metadata := e.metadata, document := e.document })

/-- `VectorStore.delete_paper` (lines 186-200): delete by id, returning
`True` when the Chroma call raised nothing and `False` when it raised. -/
def VectorStore.delete_paper (c : Collection) (paper_id : Str) :
    Bool × Collection :=
  match Collection.deleteIds c [paper_id] with
  | .ok c2 => (true, c2)
  | .error _ => (false, c)

/-- `VectorStore.count` (lines 202-207): entry count; any exception is
caught and yields `0`. -/
def VectorStore.count (c : Collection) : Nat :=
  match Collection.countEntries c with
  | .ok n => n
  | .error _ => 0

/-!
## Search path and query engine (src/app/vector_store.py lines 96-138,
src/app/query_engine.py)

The Chroma nearest-neighbor query and the two OpenAI calls are external
collaborators; they enter the embedding as oracle functions. `LLMOutcome`
is the outcome of one chat-completion request: the returned message
content, or any raised exception.
-/

/-- One hit of `collection.query` as the repository consumes it: the i-th
elements of the parallel `ids`/`distances`/`metadatas`/`documents` arrays. -/
structure RawQueryHit where
  id : Str
  distance : Rat
  metadata : PaperMetadata
  document : Str
deriving DecidableEq

/-- One result dictionary built by `VectorStore.search` (lines 130-135). -/
structure SearchResult where
  id : Str
  distance : Rat
  metadata : PaperMetadata
  document : Str
deriving DecidableEq

/-- `VectorStore.search` (lines 96-138): run the Chroma query, then format
each raw hit into a result dictionary. No exception handling — a Chroma
error propagates. -/
def VectorStore.search {ε : Type} (chromaQuery : List Rat → Nat → Except ε (List RawQueryHit))
    (query_embedding : List Rat) (top_k : Nat) : Except ε (List SearchResult) :=
  match chromaQuery query_embedding top_k with
  | .error e => .error e
  | .ok raw =>
    .ok (raw.map (fun r =>
      { id := r.id, distance := r.distance, metadata := r.metadata, document := r.document }))

/-- Outcome of one chat-completion request to the OpenAI client: the
message content, or a raised exception. -/
inductive LLMOutcome where
  | ok (text : Str)
  | fail

/-- The paper dictionary built by `QueryEngine.search` for one search
result (src/app/query_engine.py lines 55-67). The stored metadata always
carries the five fixed keys, so the dictionary defaults (`"Unknown"`,
`""`) never fire for papers stored through `add_paper`. -/
structure Paper where
  id : Str
  title : Str
  summary : Str
  keywords : List Str
  content_snippet : Str
  metadata : PaperMetadata
  similarity_score : Rat
deriving DecidableEq

/-- The keyword reshaping on line 60-62 of src/app/query_engine.py:
`metadata.get("keywords", "").split(",") if metadata.get("keywords") else []`
(a falsy — empty — stored string yields the empty list). -/
def parseKeywordsField (s : Str) : List Str :=
  if s.isEmpty then [] else splitComma s

def QueryEngine.formatPaper (result : SearchResult) : Paper :=
  { id := result.id
    title := result.metadata.title
    summary := result.metadata.summary
    keywords := parseKeywordsField result.metadata.keywords
    content_snippet := result.metadata.content_snippet
    metadata := result.metadata
    similarity_score := 1 - result.distance }

/-- The fixed generic fallback explanation substituted on line 125-127 of
src/app/query_engine.py when one explanation request fails. -/
def fallbackExplanation : Str :=
  ("This paper is relevant because it matches keywords and topics from your query.").data

/-- The per-hit prompt built on lines 98-104 of src/app/query_engine.py. -/
def QueryEngine.explanationPrompt (query : Str) (p : Paper) : Str :=
  ("Given the user query \"").data ++ query ++
  ("\", explain in 1-2 sentences why this research paper is relevant:\n\nTitle: ").data ++
  p.title ++ ("\nSummary: ").data ++ p.summary ++
  ("\nKeywords: ").data ++ joinCommaSpace p.keywords ++
  ("\n\nExplanation:").data

/-- The loop body of `_generate_explanations` for one paper: on success the
stripped message content, on any exception the fixed fallback string. -/
def QueryEngine.explanationText (llm : Str → LLMOutcome) (query : Str) (p : Paper) : Str :=
  match llm (QueryEngine.explanationPrompt query p) with
  | .ok text => stripChars text
  | .fail => fallbackExplanation

/-- `QueryEngine._generate_explanations` (lines 78-129): one explanation
is appended per paper, in loop order; a failed request appends the
fallback string and the loop continues. -/
def QueryEngine.generateExplanations (llm : Str → LLMOutcome) (query : Str) :
    List Paper → List Str
  | [] => []
  | p :: ps =>
    (match llm (QueryEngine.explanationPrompt query p) with
     | .ok text => stripChars text
     | .fail => fallbackExplanation) :: QueryEngine.generateExplanations llm query ps

/-- The response dictionary of `QueryEngine.search` (lines 72-76). -/
structure SearchOutput where
  query : Str
  papers : List Paper
  explanations : List Str
deriving DecidableEq

/-- `QueryEngine.search` (src/app/query_engine.py lines 33-76): embed the
query, search the vector store, format the papers, generate the
explanations, assemble the response. A failure embedding the query or
querying the index propagates. -/
def QueryEngine.search {ε : Type} (embed : Str → Except ε (List Rat))
    (chromaQuery : List Rat → Nat → Except ε (List RawQueryHit))
    (llm : Str → LLMOutcome) (query : Str) (top_k : Nat) :
    Except ε SearchOutput :=
  match embed query with
  | .error e => .error e
  | .ok query_embedding =>
    match VectorStore.search chromaQuery query_embedding top_k with
    | .error e => .error e
    | .ok results =>
      let papers := results.map QueryEngine.formatPaper
      let explanations := QueryEngine.generateExplanations llm query papers
      .ok { query := query, papers := papers, explanations := explanations }

/-!
## LLM processor (src/app/llm_summary.py)
-/

/-- The text actually sent by `LLMProcessor.summarize` (lines 39-42):
text longer than 8000 characters is cut to its first 8000 characters with
`"..."` appended; shorter text is sent as is. -/
def LLMProcessor.summarize_sent_text (text : Str) : Str :=
  if text.length > 8000 then text.take 8000 ++ ("...").data else text

/-- The text actually sent by `LLMProcessor.extract_keywords`
(lines 82-85): the same 8000-character truncation. -/
def LLMProcessor.extract_keywords_sent_text (text : Str) : Str :=
  if text.length > 8000 then text.take 8000 ++ ("...").data else text

/-- The keyword parsing on lines 110-112 of src/app/llm_summary.py:
`[kw.strip() for kw in keywords_str.split(",") if kw.strip()][:num_keywords]`. -/
def LLMProcessor.parse_keywords (keywords_str : Str) (num_keywords : Nat) : List Str :=
  ((splitComma keywords_str).filterMap (fun kw =>
    let t := stripChars kw
    if t.isEmpty then none else some t)).take num_keywords

/-- The prompt of `LLMProcessor.extract_keywords` (lines 87-92). -/
def LLMProcessor.extract_keywords_request (text : Str) (num_keywords : Nat) : Str :=
  ("Extract ").data ++ (toString num_keywords).data ++
  (" key terms, techniques, or concepts from the following research paper text. Return only a comma-separated list of keywords, no explanations.\n\nText:\n").data ++
  text ++ ("\n\nKeywords:").data

/-- `LLMProcessor.extract_keywords` (lines 71-117): truncate, prompt the
model, strip the response, parse it into at most `num_keywords` keywords;
an exception from the client is re-raised as a `ValueError`. -/
def LLMProcessor.extract_keywords (llm : Str → LLMOutcome) (text : Str)
    (num_keywords : Nat) : Except Unit (List Str) :=
  match llm (LLMProcessor.extract_keywords_request
      (LLMProcessor.extract_keywords_sent_text text) num_keywords) with
  | .ok raw => .ok (LLMProcessor.parse_keywords (stripChars raw) num_keywords)
  | .fail => .error ()

/-!
## The /search endpoint (src/app/main.py lines 192-210)

FastAPI evaluates the declared parameter constraint
`top_k: int = Query(5, ge=1, le=20)` before the handler body runs and
rejects violations with a 422 validation error; the handler itself rejects
a blank query with a 400 before calling the engine.
-/

inductive ApiError where
  | validation (status : Nat)
  | internal (status : Nat)
deriving DecidableEq

def searchEndpoint {ε : Type} (embed : Str → Except ε (List Rat))
    (chromaQuery : List Rat → Nat → Except ε (List RawQueryHit))
    (llm : Str → LLMOutcome) (query : Str) (top_k : Int) :
    Except ApiError SearchOutput :=
  if top_k < 1 ∨ 20 < top_k then .error (.validation 422)
  else if query.isEmpty || (stripChars query).isEmpty then .error (.validation 400)
  else
    match QueryEngine.search embed chromaQuery llm query top_k.toNat with
    | .ok r => .ok r
    | .error _ => .error (.internal 500)

/-!
## Concrete instances used by the witness theorems
-/

def wQuery : Str := ("transformer attention").data

def wMetaA : PaperMetadata :=
  { title := ("Paper A").data, summary := ("summary a").data,
    keywords := ("k1,k2").data, content_snippet := ("snippet a").data,
    full_text_length := 11, extra := [] }

def wMetaB : PaperMetadata :=
  { title := ("Paper B").data, summary := ("summary b").data,
    keywords := ("k3").data, content_snippet := ("snippet b").data,
    full_text_length := 7, extra := [(("filename").data, ("b.pdf").data)] }

def wMetaC : PaperMetadata :=
  { title := ("Paper C").data, summary := ("summary c").data,
    keywords := [], content_snippet := ("snippet c").data,
    full_text_length := 0, extra := [] }

def wRawA : RawQueryHit :=
  { id := ("idA").data, distance := 0, metadata := wMetaA, document := ("snippet a").data }

def wRawB : RawQueryHit :=
  { id := ("idB").data, distance := 1/2, metadata := wMetaB, document := ("snippet b").data }

def wRawC : RawQueryHit :=
  { id := ("idC").data, distance := 1, metadata := wMetaC, document := ("snippet c").data }

def wEmbed : Str → Except Unit (List Rat) := fun _ => .ok [1]

def wChroma1 : List Rat → Nat → Except Unit (List RawQueryHit) := fun _ _ => .ok [wRawA]

def wChroma3 : List Rat → Nat → Except Unit (List RawQueryHit) :=
  fun _ _ => .ok [wRawA, wRawB, wRawC]

def wEmbedBad : Str → Except Unit (List Rat) := fun _ => .error ()

def wChromaBad : List Rat → Nat → Except Unit (List RawQueryHit) := fun _ _ => .error ()

def wPaperA : Paper :=
  QueryEngine.formatPaper
    { id := wRawA.id, distance := wRawA.distance, metadata := wRawA.metadata,
      document := wRawA.document }

def wPaperB : Paper :=
  QueryEngine.formatPaper
    { id := wRawB.id, distance := wRawB.distance, metadata := wRawB.metadata,
      document := wRawB.document }

def wPaperC : Paper :=
  QueryEngine.formatPaper
    { id := wRawC.id, distance := wRawC.distance, metadata := wRawC.metadata,
      document := wRawC.document }

def wLLMfail : Str → LLMOutcome := fun _ => .fail

def wGood : Str := ("  A good explanation.  ").data

/-- An LLM oracle that fails exactly on the request for the second hit. -/
def wLLMmid : Str → LLMOutcome :=
  fun prompt =>
    if prompt == QueryEngine.explanationPrompt wQuery wPaperB then .fail
    else .ok wGood

def wOut1 : SearchOutput :=
  { query := wQuery, papers := [wPaperA], explanations := [fallbackExplanation] }

def wOut2 : SearchOutput :=
  { query := wQuery, papers := [wPaperA, wPaperB, wPaperC],
    explanations := [stripChars wGood, fallbackExplanation, stripChars wGood] }

/-- An empty, reachable collection. -/
def wEmptyColl : Collection := { dim := none, entries := [], broken := false }

/-- A reachable collection fixed at dimension 2 with no entries. -/
def wColl2 : Collection := { dim := some 2, entries := [], broken := false }

def wEntryA : Entry :=
  { id := ("idA").data, embedding := [1], metadata := wMetaA, document := ("snippet a").data }

/-- A reachable one-entry collection. -/
def wOneColl : Collection := { dim := some 1, entries := [wEntryA], broken := false }

/-- The same one-entry collection with the storage unreachable. -/
def wBrokenColl : Collection := { dim := some 1, entries := [wEntryA], broken := true }


/-- The collection obtained by adding one paper to the empty collection
(used by the C4 and C10 witnesses). -/
def wAddedColl : Collection :=
  { dim := some 1,
    entries := [{ id := ("pid").data, embedding := [1],
                  metadata := mkPaperMetadata (("T").data) (("S").data)
                    [("k1").data, ("k2").data] (("C").data) (("full").data) [],
                  document := ("C").data }],
    broken := false }

/-!
## Lemmas about the string utilities
-/

theorem splitComma_ne_nil (s : Str) : splitComma s ≠ [] := by
  induction s with
  | nil => simp [splitComma]
  | cons c cs ih =>
    simp only [splitComma]
    split
    · simp
    · cases h : splitComma cs with
      | nil => simp
      | cons p ps => simp

theorem splitComma_no_comma (k : Str) (hk : ',' ∉ k) : splitComma k = [k] := by
  induction k with
  | nil => rfl
  | cons c cs ih =>
    have hc : ¬ c = ',' := fun h => hk (h ▸ List.mem_cons_self c cs)
    have hcs : ',' ∉ cs := fun h => hk (List.mem_cons_of_mem c h)
    simp only [splitComma, if_neg hc, ih hcs]

theorem splitComma_append_comma (k rest : Str) (hk : ',' ∉ k) :
    splitComma (k ++ ',' :: rest) = k :: splitComma rest := by
  induction k with
  | nil => simp [splitComma]
  | cons c cs ih =>
    have hc : ¬ c = ',' := fun h => hk (h ▸ List.mem_cons_self c cs)
    have hcs : ',' ∉ cs := fun h => hk (List.mem_cons_of_mem c h)
    simp only [List.cons_append, splitComma, if_neg hc, List.append_eq]
    rw [ih hcs]

theorem splitComma_joinComma (ks : List Str) (hne : ks ≠ [])
    (h : ∀ kw ∈ ks, ',' ∉ kw) : splitComma (joinComma ks) = ks := by
  induction ks with
  | nil => exact absurd rfl hne
  | cons k ks ih =>
    cases ks with
    | nil =>
      simp only [joinComma]
      exact splitComma_no_comma k (h k (List.mem_cons_self k []))
    | cons k2 ks2 =>
      have hk : ',' ∉ k := h k (List.mem_cons_self k _)
      have htail : ∀ kw ∈ k2 :: ks2, ',' ∉ kw :=
        fun kw hm => h kw (List.mem_cons_of_mem k hm)
      have hj : joinComma (k :: k2 :: ks2) = k ++ ',' :: joinComma (k2 :: ks2) := rfl
      rw [hj, splitComma_append_comma k _ hk, ih (by simp) htail]

theorem parseKeywordsField_joinComma (ks : List Str)
    (h : ∀ kw ∈ ks, kw ≠ [] ∧ ',' ∉ kw) :
    parseKeywordsField (joinComma ks) = ks := by
  cases ks with
  | nil => rfl
  | cons k ks2 =>
    have hj : joinComma (k :: ks2) ≠ [] := by
      cases ks2 with
      | nil =>
        have := (h k (List.mem_cons_self k [])).1
        simpa [joinComma] using this
      | cons k2 ks3 => simp [joinComma]
    unfold parseKeywordsField
    rw [if_neg (by simpa [List.isEmpty_iff] using hj)]
    exact splitComma_joinComma (k :: ks2) (by simp) (fun kw hm => (h kw hm).2)

theorem generateExplanations_eq_map (llm : Str → LLMOutcome) (query : Str)
    (papers : List Paper) :
    QueryEngine.generateExplanations llm query papers =
      papers.map (QueryEngine.explanationText llm query) := by
  induction papers with
  | nil => rfl
  | cons p ps ih =>
    simp only [QueryEngine.generateExplanations, QueryEngine.explanationText,
      List.map_cons, ih]

theorem filterMap_strip_eq_filter (l : List Str) :
    (l.filterMap (fun kw =>
        let t := stripChars kw
        if t.isEmpty then none else some t)) =
      (l.map stripChars).filter (fun t => !t.isEmpty) := by
  induction l with
  | nil => rfl
  | cons a l ih =>
    by_cases h : (stripChars a).isEmpty
    · simp only [List.filterMap_cons, List.map_cons, List.filter_cons]
      simp [h]
      simpa using ih
    · simp only [List.filterMap_cons, List.map_cons, List.filter_cons]
      simp [h]
      simpa using ih

/-!
## Claim theorems
-/

/-- C1: for every successful `QueryEngine.search` call, the returned
explanations list has exactly the same length as the returned papers list,
and the i-th explanation is the explanation computed for the i-th paper
(fallback included), in the same order — regardless of which per-hit
explanation requests fail. -/
theorem c1_explanations_align {ε : Type} (embed : Str → Except ε (List Rat))
    (chromaQuery : List Rat → Nat → Except ε (List RawQueryHit))
    (llm : Str → LLMOutcome) (query : Str) (top_k : Nat) (r : SearchOutput)
    (h : QueryEngine.search embed chromaQuery llm query top_k = .ok r) :
    r.explanations.length = r.papers.length ∧
      ∀ i : Nat, r.explanations.get? i =
        (r.papers.get? i).map (QueryEngine.explanationText llm query) := by
  unfold QueryEngine.search at h
  split at h
  · exact Except.noConfusion h
  · split at h
    · exact Except.noConfusion h
    · cases Except.ok.inj h
      constructor
      · simp [generateExplanations_eq_map]
      · intro i
        simp [generateExplanations_eq_map, List.get?_map]

theorem c1_explanations_align_witness :
    QueryEngine.search wEmbed wChroma1 wLLMfail wQuery 5 = .ok wOut1 ∧
      wOut1.explanations.length = wOut1.papers.length := by
  have hs : QueryEngine.search wEmbed wChroma1 wLLMfail wQuery 5 = .ok wOut1 := rfl
  exact ⟨hs, (c1_explanations_align wEmbed wChroma1 wLLMfail wQuery 5 wOut1 hs).1⟩

/-- C2: whenever embedding the query and the index query succeed, the call
as a whole succeeds no matter which explanation requests fail; a hit whose
explanation request fails receives exactly the fixed fallback string, and
a hit whose request succeeds receives its own stripped response text. -/
theorem c2_explanation_fallback {ε : Type} (embed : Str → Except ε (List Rat))
    (chromaQuery : List Rat → Nat → Except ε (List RawQueryHit))
    (llm : Str → LLMOutcome) (query : Str) (top_k : Nat)
    (qe : List Rat) (raws : List RawQueryHit)
    (h1 : embed query = .ok qe) (h2 : chromaQuery qe top_k = .ok raws) :
    ∃ r : SearchOutput,
      QueryEngine.search embed chromaQuery llm query top_k = .ok r ∧
      r.papers.length = raws.length ∧
      (∀ i : Nat, ∀ p : Paper, r.papers.get? i = some p →
        llm (QueryEngine.explanationPrompt query p) = .fail →
        r.explanations.get? i = some fallbackExplanation) ∧
      (∀ i : Nat, ∀ p : Paper, ∀ t : Str, r.papers.get? i = some p →
        llm (QueryEngine.explanationPrompt query p) = .ok t →
        r.explanations.get? i = some (stripChars t)) := by
  have hsearch : QueryEngine.search embed chromaQuery llm query top_k =
      .ok { query := query,
            papers := (raws.map (fun rr =>
              ({ id := rr.id, distance := rr.distance, metadata := rr.metadata,
                 document := rr.document } : SearchResult))).map QueryEngine.formatPaper,
            explanations := QueryEngine.generateExplanations llm query
              ((raws.map (fun rr =>
                ({ id := rr.id, distance := rr.distance, metadata := rr.metadata,
                   document := rr.document } : SearchResult))).map QueryEngine.formatPaper) } := by
    unfold QueryEngine.search VectorStore.search
    rw [h1]
    dsimp only
    rw [h2]
  refine ⟨_, hsearch, ?_, ?_, ?_⟩
  · simp
  · intro i p hp hllm
    simp only [generateExplanations_eq_map, List.get?_map] at hp ⊢
    rw [hp]
    simp [QueryEngine.explanationText, hllm]
  · intro i p t hp hllm
    simp only [generateExplanations_eq_map, List.get?_map] at hp ⊢
    rw [hp]
    simp [QueryEngine.explanationText, hllm]

theorem c2_explanation_fallback_witness :
    QueryEngine.search wEmbed wChroma3 wLLMmid wQuery 5 = .ok wOut2 ∧
      wOut2.explanations.get? 1 = some fallbackExplanation ∧
      wOut2.explanations.get? 0 = some (stripChars wGood) := by
  obtain ⟨r, hr, hlen, hfb, hok⟩ :=
    c2_explanation_fallback wEmbed wChroma3 wLLMmid wQuery 5 [1] [wRawA, wRawB, wRawC]
      rfl rfl
  have hr2 : QueryEngine.search wEmbed wChroma3 wLLMmid wQuery 5 = .ok wOut2 := rfl
  have hre : r = wOut2 := Except.ok.inj (hr.symm.trans hr2)
  subst hre
  refine ⟨hr2, ?_, ?_⟩
  · exact hfb 1 wPaperB rfl rfl
  · exact hok 0 wPaperA wGood rfl rfl

theorem contains_single (x pid : Str) : [pid].contains x = (x == pid) := by
  simp only [List.contains_cons, List.contains_nil, Bool.or_false]

/-- C3: a vector whose length differs from the collection's fixed
dimension is rejected by `add_paper` with the dimension-mismatch error and
the collection is left exactly as it was — nothing is stored, truncated or
padded. -/
theorem c3_dimension_mismatch_rejected (c : Collection) (paper_id : Str)
    (title summary : Str) (keywords : List Str)
    (content_snippet full_text : Str) (embedding : List Rat)
    (extra : List (Str × Str)) (d : Nat)
    (hb : c.broken = false) (hd : c.dim = some d)
    (hlen : embedding.length ≠ d) :
    VectorStore.add_paper c paper_id title summary keywords content_snippet
        full_text embedding extra = (.error .dimensionMismatch, c) := by
  simp [VectorStore.add_paper, Collection.add, hb, hd, hlen]

theorem c3_dimension_mismatch_rejected_witness :
    VectorStore.add_paper wColl2 (("pid").data) (("T").data) (("S").data)
        [("k1").data] (("C").data) (("full").data) [1] []
      = (.error .dimensionMismatch, wColl2) :=
  c3_dimension_mismatch_rejected wColl2 (("pid").data) (("T").data) (("S").data)
    [("k1").data] (("C").data) (("full").data) [1] [] 2 rfl rfl (by decide)

/-- C4: after a successful `add_paper`, `get_paper` on the returned id
yields exactly the stored record — the assembled metadata dictionary
verbatim and the snippet as document — and splitting the stored
comma-joined keyword string (the reshape the repository applies in
`QueryEngine.search`) recovers the keyword sequence passed to `add_paper`
in its original order, for valid keywords (nonempty, comma-free, as
produced by keyword extraction). -/
theorem c4_add_get_roundtrip (c : Collection) (paper_id : Str)
    (title summary : Str) (keywords : List Str)
    (content_snippet full_text : Str) (embedding : List Rat)
    (extra : List (Str × Str)) (c2 : Collection)
    (hadd : VectorStore.add_paper c paper_id title summary keywords
        content_snippet full_text embedding extra = (.ok paper_id, c2))
    (hks : ∀ kw ∈ keywords, kw ≠ [] ∧ ',' ∉ kw) :
    VectorStore.get_paper c2 paper_id =
      some { id := paper_id,
             metadata := mkPaperMetadata title summary keywords
               content_snippet full_text extra,
             document := content_snippet } ∧
      parseKeywordsField (mkPaperMetadata title summary keywords
          content_snippet full_text extra).keywords = keywords := by
  refine ⟨?_, parseKeywordsField_joinComma keywords hks⟩
  unfold VectorStore.add_paper at hadd
  split at hadd
  case h_2 e heq => simp at hadd
  case h_1 c3 heq =>
    have hc3 : c3 = c2 := congrArg Prod.snd hadd
    subst hc3
    unfold Collection.add at heq
    split at heq
    · exact Except.noConfusion heq
    · rename_i hbr
      have hbr2 : c.broken = false := by
        cases hcb : c.broken
        · rfl
        · exact absurd hcb hbr
      split at heq
      · split at heq
        · exact Except.noConfusion heq
        · split at heq
          · exact Except.noConfusion heq
          · rename_i hany
            have hany2 : c.entries.any (fun e => e.id == paper_id) = false := by
              cases ha : c.entries.any (fun e => e.id == paper_id)
              · rfl
              · exact absurd ha hany
            cases Except.ok.inj heq
            unfold VectorStore.get_paper Collection.get
            simp only [hbr2, Bool.false_eq_true, if_false]
            rw [List.filter_append]
            rw [List.filter_eq_nil.mpr (fun e he => by
              simp only [contains_single]
              intro hcontra
              rw [List.any_eq_false] at hany2
              exact hany2 e he hcontra)]
            simp [contains_single]
      · split at heq
        · exact Except.noConfusion heq
        · rename_i hany
          have hany2 : c.entries.any (fun e => e.id == paper_id) = false := by
            cases ha : c.entries.any (fun e => e.id == paper_id)
            · rfl
            · exact absurd ha hany
          cases Except.ok.inj heq
          unfold VectorStore.get_paper Collection.get
          simp only [hbr2, Bool.false_eq_true, if_false]
          rw [List.filter_append]
          rw [List.filter_eq_nil.mpr (fun e he => by
            simp only [contains_single]
            intro hcontra
            rw [List.any_eq_false] at hany2
            exact hany2 e he hcontra)]
          simp [contains_single]

theorem c4_add_get_roundtrip_witness :
    VectorStore.get_paper wAddedColl (("pid").data) =
      some { id := ("pid").data,
             metadata := mkPaperMetadata (("T").data) (("S").data)
               [("k1").data, ("k2").data] (("C").data) (("full").data) [],
             document := ("C").data } ∧
      parseKeywordsField (mkPaperMetadata (("T").data) (("S").data)
          [("k1").data, ("k2").data] (("C").data) (("full").data) []).keywords =
        [("k1").data, ("k2").data] :=
  c4_add_get_roundtrip wEmptyColl (("pid").data) (("T").data) (("S").data)
    [("k1").data, ("k2").data] (("C").data) (("full").data) [1] [] wAddedColl
    rfl (by decide)

/-- C5: a blank query or a `top_k` outside `[1, 20]` is rejected by the
/search endpoint with a validation error (422 for the FastAPI bound check,
400 for the blank-query check), never clamped into range; the outcome is
identical for any oracles, i.e. neither the embedding model nor the index
is ever consulted. -/
theorem c5_validation_rejects {ε : Type} (embed : Str → Except ε (List Rat))
    (chromaQuery : List Rat → Nat → Except ε (List RawQueryHit))
    (llm : Str → LLMOutcome)
    (embed2 : Str → Except ε (List Rat))
    (chromaQuery2 : List Rat → Nat → Except ε (List RawQueryHit))
    (llm2 : Str → LLMOutcome) (query : Str) (top_k : Int)
    (h : stripChars query = [] ∨ top_k < 1 ∨ 20 < top_k) :
    searchEndpoint embed chromaQuery llm query top_k =
      .error (if top_k < 1 ∨ 20 < top_k then ApiError.validation 422
              else ApiError.validation 400) ∧
    searchEndpoint embed chromaQuery llm query top_k =
      searchEndpoint embed2 chromaQuery2 llm2 query top_k := by
  by_cases hk : top_k < 1 ∨ 20 < top_k
  · rw [if_pos hk]
    unfold searchEndpoint
    rw [if_pos hk, if_pos hk]
    exact ⟨rfl, rfl⟩
  · have hq : stripChars query = [] := h.resolve_right hk
    rw [if_neg hk]
    unfold searchEndpoint
    rw [if_neg hk, if_neg hk]
    have hq2 : (query.isEmpty || (stripChars query).isEmpty) = true := by
      simp [hq]
    rw [if_pos hq2, if_pos hq2]
    exact ⟨rfl, rfl⟩

theorem c5_validation_rejects_witness :
    searchEndpoint wEmbed wChroma1 wLLMfail (("x").data) 21 =
      .error (ApiError.validation 422) := by
  have h := (c5_validation_rejects wEmbed wChroma1 wLLMfail wEmbedBad wChromaBad
    wLLMfail (("x").data) 21 (by decide)).1
  simpa using h

/-- C6 counterexample: with the storage unreachable and one entry already
committed, `list_all_papers` returns the empty list and `count` returns 0
— indistinguishable from an empty store — and `get_paper` returns `None`;
the same collection with storage reachable shows one paper. The failure is
therefore masked as a silent empty result, not propagated. -/
theorem c6_counterexample :
    VectorStore.list_all_papers wBrokenColl = [] ∧
    VectorStore.count wBrokenColl = 0 ∧
    VectorStore.get_paper wBrokenColl (("idA").data) = none ∧
    wBrokenColl.entries ≠ [] ∧
    wBrokenColl = { dim := wOneColl.dim, entries := wOneColl.entries, broken := true } ∧
    VectorStore.count wOneColl = 1 := by
  refine ⟨rfl, rfl, rfl, ?_, rfl, rfl⟩
  simp [wBrokenColl, wEntryA]

/-- C6 amended: a storage-level failure during get/list/count/delete is
caught inside `VectorStore` and masked as the benign default of the
operation (`None`, `[]`, `0`, `False`) — it does not propagate to the
caller, who cannot distinguish it from an empty store or a missing id. -/
theorem c6_failures_masked (c : Collection) (hb : c.broken = true)
    (paper_id : Str) :
    VectorStore.list_all_papers c = [] ∧
    VectorStore.count c = 0 ∧
    VectorStore.get_paper c paper_id = none ∧
    (VectorStore.delete_paper c paper_id).1 = false := by
  unfold VectorStore.list_all_papers VectorStore.count VectorStore.get_paper
    VectorStore.delete_paper Collection.getAll Collection.countEntries
    Collection.get Collection.deleteIds
  rw [hb]
  exact ⟨rfl, rfl, rfl, rfl⟩

theorem c6_failures_masked_witness :
    VectorStore.list_all_papers wBrokenColl = [] ∧
    VectorStore.count wBrokenColl = 0 ∧
    VectorStore.get_paper wBrokenColl (("idA").data) = none ∧
    (VectorStore.delete_paper wBrokenColl (("idA").data)).1 = false :=
  c6_failures_masked wBrokenColl rfl (("idA").data)

/-- C7 counterexample: deleting an id that is not in the store — here on
an empty store, and again as a second delete of an id just deleted —
returns `True`, the success outcome, not the negative outcome
(`False`/`NotFound`) the claim requires. -/
theorem c7_counterexample :
    (VectorStore.delete_paper wEmptyColl (("missing").data)).1 = true ∧
    (VectorStore.delete_paper
        (VectorStore.delete_paper wOneColl (("idA").data)).2 (("idA").data)).1 = true :=
  ⟨rfl, rfl⟩

/-- C7 amended: on a reachable store, `delete_paper` removes the entry if
present and never raises; afterwards `get_paper` on that id yields `None`,
and a repeated delete of the same id is equally non-fatal — but any delete
on a reachable store, a missing id included, reports `True` (Chroma's
delete is a silent no-op for absent ids), not a negative result. -/
theorem c7_delete_idempotent (c : Collection) (hb : c.broken = false)
    (paper_id : Str) :
    (VectorStore.delete_paper c paper_id).1 = true ∧
    (VectorStore.delete_paper c paper_id).2.entries =
      c.entries.filter (fun e => !(e.id == paper_id)) ∧
    VectorStore.get_paper (VectorStore.delete_paper c paper_id).2 paper_id = none ∧
    (VectorStore.delete_paper
        (VectorStore.delete_paper c paper_id).2 paper_id).1 = true := by
  have hdel : VectorStore.delete_paper c paper_id =
      (true, { dim := c.dim,
               entries := c.entries.filter (fun e => !([paper_id].contains e.id)),
               broken := c.broken }) := by
    unfold VectorStore.delete_paper Collection.deleteIds
    rw [hb]
    rfl
  refine ⟨by rw [hdel], ?_, ?_, ?_⟩
  · rw [hdel]
    simp only [contains_single]
  · rw [hdel]
    unfold VectorStore.get_paper Collection.get
    simp only [hb, Bool.false_eq_true, if_false]
    have hnil : (c.entries.filter (fun e => !([paper_id].contains e.id))).filter
        (fun e => [paper_id].contains e.id) = [] := by
      rw [List.filter_eq_nil_iff]
      intro e he hcontra
      have hmem := List.of_mem_filter he
      simp only [Bool.not_eq_eq_eq_not, Bool.not_true] at hmem
      rw [hmem] at hcontra
      exact Bool.noConfusion hcontra
    simp [hnil]
  · rw [hdel]
    unfold VectorStore.delete_paper Collection.deleteIds
    rw [hb]
    rfl

theorem c7_delete_idempotent_witness :
    (VectorStore.delete_paper wOneColl (("idA").data)).1 = true ∧
    (VectorStore.delete_paper wOneColl (("idA").data)).2.entries =
      wOneColl.entries.filter (fun e => !(e.id == ("idA").data)) ∧
    VectorStore.get_paper (VectorStore.delete_paper wOneColl (("idA").data)).2
      (("idA").data) = none ∧
    (VectorStore.delete_paper
        (VectorStore.delete_paper wOneColl (("idA").data)).2 (("idA").data)).1 = true :=
  c7_delete_idempotent wOneColl rfl (("idA").data)

/-- C8: both generative-text call sites (summarization and keyword
extraction) send the same text: input longer than 8000 characters is cut
to exactly its first 8000 characters with the three-character ellipsis
marker appended (total 8003), and input of 8000 characters or fewer is
sent unchanged. -/
theorem c8_truncation (text : Str) :
    LLMProcessor.summarize_sent_text text =
      LLMProcessor.extract_keywords_sent_text text ∧
    (LLMProcessor.summarize_sent_text text).take 8000 = text.take 8000 ∧
    (LLMProcessor.summarize_sent_text text).length =
      (if 8000 < text.length then 8003 else text.length) ∧
    LLMProcessor.summarize_sent_text text =
      (if 8000 < text.length then text.take 8000 ++ ("...").data else text) := by
  by_cases h : 8000 < text.length
  · have hs : LLMProcessor.summarize_sent_text text =
        text.take 8000 ++ ("...").data := by
      unfold LLMProcessor.summarize_sent_text
      rw [if_pos h]
    have htk : (text.take 8000).length = 8000 := by
      rw [List.length_take]
      exact Nat.min_eq_left (Nat.le_of_lt h)
    refine ⟨rfl, ?_, ?_, ?_⟩
    · rw [hs, List.take_append_of_le_length (by rw [htk]), List.take_take,
        Nat.min_self]
    · rw [hs, List.length_append, htk, if_pos h]
      rfl
    · rw [hs, if_pos h]
  · have hs : LLMProcessor.summarize_sent_text text = text := by
      unfold LLMProcessor.summarize_sent_text
      rw [if_neg h]
    refine ⟨rfl, by rw [hs], ?_, ?_⟩
    · rw [hs, if_neg h]
    · rw [hs, if_neg h]

/-- C9: the keyword parsing of `extract_keywords` is exactly: split the
returned string on commas, trim each fragment, drop the fragments that are
empty after trimming, and cap the result at `num_keywords`; the result
hence has at most `num_keywords` entries and is a sublist of the trimmed
fragments in their original order. -/
theorem c9_keyword_parsing (keywords_str : Str) (num_keywords : Nat) :
    LLMProcessor.parse_keywords keywords_str num_keywords =
      (((splitComma keywords_str).map stripChars).filter
          (fun t => !t.isEmpty)).take num_keywords ∧
    (LLMProcessor.parse_keywords keywords_str num_keywords).length ≤ num_keywords ∧
    List.Sublist (LLMProcessor.parse_keywords keywords_str num_keywords)
      ((splitComma keywords_str).map stripChars) := by
  have he : LLMProcessor.parse_keywords keywords_str num_keywords =
      (((splitComma keywords_str).map stripChars).filter
          (fun t => !t.isEmpty)).take num_keywords := by
    unfold LLMProcessor.parse_keywords
    rw [filterMap_strip_eq_filter]
  refine ⟨he, ?_, ?_⟩
  · rw [he, List.length_take]
    exact Nat.min_le_left _ _
  · rw [he]
    exact (List.take_sublist _ _).trans (List.filter_sublist _)

/-- C10: the stored entry depends on the full text only through its
length — two `add_paper` calls differing only in equal-length full texts
produce identical results — and on success the single new entry holds the
snippet as its document and the assembled metadata (which records only
`full_text_length`), so no stored field contains the full text itself. -/
theorem c10_full_text_only_length (c : Collection) (paper_id : Str)
    (title summary : Str) (keywords : List Str) (content_snippet : Str)
    (full_text1 full_text2 : Str) (embedding : List Rat)
    (extra : List (Str × Str))
    (hlen : full_text1.length = full_text2.length) :
    VectorStore.add_paper c paper_id title summary keywords content_snippet
        full_text1 embedding extra =
      VectorStore.add_paper c paper_id title summary keywords content_snippet
        full_text2 embedding extra ∧
    ∀ pid2 : Str, ∀ c2 : Collection,
      VectorStore.add_paper c paper_id title summary keywords content_snippet
          full_text1 embedding extra = (.ok pid2, c2) →
      c2.entries = c.entries ++
        [{ id := paper_id, embedding := embedding,
           metadata := mkPaperMetadata title summary keywords content_snippet
             full_text1 extra,
           document := content_snippet }] := by
  have hmd : mkPaperMetadata title summary keywords content_snippet full_text1 extra =
      mkPaperMetadata title summary keywords content_snippet full_text2 extra := by
    unfold mkPaperMetadata
    rw [hlen]
  constructor
  · unfold VectorStore.add_paper
    rw [hmd]
  · intro pid2 c2 hadd
    unfold VectorStore.add_paper at hadd
    split at hadd
    case h_2 e heq => simp at hadd
    case h_1 c3 heq =>
      have hc3 : c3 = c2 := congrArg Prod.snd hadd
      subst hc3
      unfold Collection.add at heq
      split at heq
      · exact Except.noConfusion heq
      · split at heq
        · split at heq
          · exact Except.noConfusion heq
          · split at heq
            · exact Except.noConfusion heq
            · cases Except.ok.inj heq
              rfl
        · split at heq
          · exact Except.noConfusion heq
          · cases Except.ok.inj heq
            rfl

theorem c10_full_text_only_length_witness :
    VectorStore.add_paper wEmptyColl (("pid").data) (("T").data) (("S").data)
        [("k1").data, ("k2").data] (("C").data) (("full").data) [1] [] =
      VectorStore.add_paper wEmptyColl (("pid").data) (("T").data) (("S").data)
        [("k1").data, ("k2").data] (("C").data) (("text").data) [1] [] ∧
    wAddedColl.entries = wEmptyColl.entries ++
      [{ id := ("pid").data, embedding := [1],
         metadata := mkPaperMetadata (("T").data) (("S").data)
           [("k1").data, ("k2").data] (("C").data) (("full").data) [],
         document := ("C").data }] := by
  have h := c10_full_text_only_length wEmptyColl (("pid").data) (("T").data)
    (("S").data) [("k1").data, ("k2").data] (("C").data) (("full").data)
    (("text").data) [1] [] (by decide)
  exact ⟨h.1, h.2 (("pid").data) wAddedColl rfl⟩
